import Mathlib

/-!
Shallow embedding of a YouTube-automation dashboard: a Next.js client page
with a workflow runner, three stateless proxy API routes
(`/api/youtube/channel`, `/api/youtube/search`, `/api/youtube/comments`),
and `localStorage` persistence.

Modelling conventions:
* Pure functions are translated directly.
* `fetch` calls are modelled by passing the external behaviour (for the
  runner: one function per endpoint; for a proxy route: the external
  response) as an explicit parameter; each model also reports which
  external requests were issued.
* `localStorage` is modelled as a partial map from string keys to JSON
  values; `JSON.stringify` / `JSON.parse` are the identity at the level of
  JSON values, so a slot stores the JSON value itself.
* JavaScript `a ?? b` on an optional `a` is `Option.getD` /  `<|>`;
  template-string interpolation of a possibly-`undefined` value prints
  `"undefined"`, modelled by `templateOpt`.
-/

/-- JSON values, the codomain of `JSON.parse`. -/
inductive Json where
  | null : Json
  | str : String → Json
  | num : Int → Json
  | arr : List Json → Json
  | obj : List (String × Json) → Json

/-- First-match property access on a JSON object (JS `value[key]`). -/
def lookupField : List (String × Json) → String → Option Json
  | [], _ => none
  | (k, v) :: rest, key => if k = key then some v else lookupField rest key

/-- `j[key]` when `j` is an object, else `undefined`. -/
def Json.getField : Json → String → Option Json
  | .obj fields, key => lookupField fields key
  | _, _ => none

/-- A JSON string viewed as a `String`. -/
def Json.asString : Json → Option String
  | .str s => some s
  | _ => none

/-! ## Client data model (`part_000`) -/

/-- `type WorkflowStepType = 'channelStats' | 'searchVideos' | 'fetchComments'` -/
inductive WorkflowStepType where
  | channelStats
  | searchVideos
  | fetchComments
  deriving DecidableEq, Repr

/-- `type WorkflowStep = { id; type; config: Record<string, string> }`;
the record is an association list with first-match lookup. -/
structure WorkflowStep where
  id : String
  type : WorkflowStepType
  config : List (String × String)
  deriving DecidableEq, Repr

/-- `type WorkflowSchedule = 'manual' | 'daily' | 'hourly'` -/
inductive WorkflowSchedule where
  | manual
  | daily
  | hourly
  deriving DecidableEq, Repr

/-- `type AutomationWorkflow = { id; name; schedule; steps }` -/
structure AutomationWorkflow where
  id : String
  name : String
  schedule : WorkflowSchedule
  steps : List WorkflowStep
  deriving DecidableEq, Repr

/-- `scheduleLabel` record. -/
def scheduleLabel : WorkflowSchedule → String
  | .manual => "Run on demand"
  | .daily => "Run daily"
  | .hourly => "Run hourly"

namespace STORAGE_KEYS

def apiKey : String := "youtube-automation:api-key"

def workflows : String := "youtube-automation:workflows"

def channelId : String := "youtube-automation:channel-id"

end STORAGE_KEYS

/-! ## localStorage model -/

/-- The browser's `localStorage`, at the JSON-value level. -/
def Store : Type := String → Option Json

/-- `setLocalStorage`: `window.localStorage.setItem(key, JSON.stringify(value))`. -/
def setLocalStorage (store : Store) (key : String) (value : Json) : Store :=
  fun k => if k = key then some value else store k

/-- `getLocalStorage<T>(key, fallback)`: reads the slot, returns `fallback`
when the slot is empty or the stored text does not read back as a `T`
(the `try`/`catch` around `JSON.parse`, plus the typed use of the parsed
value that the `as T` cast promises). `read` is the typed view of the
parsed JSON value. -/
def getLocalStorage {α : Type} (store : Store) (key : String) (fallback : α)
    (read : Json → Option α) : α :=
  match store key with
  | none => fallback
  | some j => (read j).getD fallback

/-! ## JSON (de)serialization of the workflow list

`JSON.stringify` writes each object's fields in insertion order; the typed
read below recovers the fields by name. -/

/-- Serialized form of a `WorkflowStepType` tag. -/
def stepTypeTag : WorkflowStepType → String
  | .channelStats => "channelStats"
  | .searchVideos => "searchVideos"
  | .fetchComments => "fetchComments"

/-- Reading a `WorkflowStepType` tag back. -/
def stepTypeOfTag : String → Option WorkflowStepType
  | "channelStats" => some .channelStats
  | "searchVideos" => some .searchVideos
  | "fetchComments" => some .fetchComments
  | _ => none

/-- Serialized form of a `WorkflowSchedule`. -/
def scheduleTag : WorkflowSchedule → String
  | .manual => "manual"
  | .daily => "daily"
  | .hourly => "hourly"

/-- Reading a `WorkflowSchedule` back. -/
def scheduleOfTag : String → Option WorkflowSchedule
  | "manual" => some .manual
  | "daily" => some .daily
  | "hourly" => some .hourly
  | _ => none

/-- A `Record<string, string>` as a JSON object. -/
def encodeConfig (config : List (String × String)) : Json :=
  .obj (config.map fun p => (p.1, .str p.2))

/-- Typed read of the fields of a `Record<string, string>`. -/
def decodeFields : List (String × Json) → Option (List (String × String))
  | [] => some []
  | (k, v) :: rest =>
    match v.asString with
    | none => none
    | some s => (decodeFields rest).map fun tail => (k, s) :: tail

/-- Typed read of a `Record<string, string>`. -/
def decodeConfig : Json → Option (List (String × String))
  | .obj fields => decodeFields fields
  | _ => none

/-- A `WorkflowStep` as a JSON object. -/
def encodeStep (s : WorkflowStep) : Json :=
  .obj [("id", .str s.id), ("type", .str (stepTypeTag s.type)),
        ("config", encodeConfig s.config)]

/-- Typed read of a `WorkflowStep`. -/
def decodeStep (j : Json) : Option WorkflowStep := do
  let i ← (j.getField "id").bind Json.asString
  let tag ← (j.getField "type").bind Json.asString
  let ty ← stepTypeOfTag tag
  let cfgJson ← j.getField "config"
  let cfg ← decodeConfig cfgJson
  pure ⟨i, ty, cfg⟩

/-- Typed read of a list of `WorkflowStep`s. -/
def decodeSteps : List Json → Option (List WorkflowStep)
  | [] => some []
  | j :: rest =>
    match decodeStep j with
    | none => none
    | some s => (decodeSteps rest).map fun tail => s :: tail

/-- An `AutomationWorkflow` as a JSON object. -/
def encodeWorkflow (w : AutomationWorkflow) : Json :=
  .obj [("id", .str w.id), ("name", .str w.name),
        ("schedule", .str (scheduleTag w.schedule)),
        ("steps", .arr (w.steps.map encodeStep))]

/-- Typed read of an `AutomationWorkflow`. -/
def decodeWorkflow (j : Json) : Option AutomationWorkflow := do
  let i ← (j.getField "id").bind Json.asString
  let n ← (j.getField "name").bind Json.asString
  let schedTag ← (j.getField "schedule").bind Json.asString
  let sched ← scheduleOfTag schedTag
  let stepsJson ← j.getField "steps"
  let steps ← match stepsJson with
    | .arr l => decodeSteps l
    | _ => none
  pure ⟨i, n, sched, steps⟩

/-- Typed read of a list of `AutomationWorkflow`s. -/
def decodeWorkflowList : List Json → Option (List AutomationWorkflow)
  | [] => some []
  | j :: rest =>
    match decodeWorkflow j with
    | none => none
    | some w => (decodeWorkflowList rest).map fun tail => w :: tail

/-- The workflow list as a JSON array (what `JSON.stringify` sees). -/
def encodeWorkflows (ws : List AutomationWorkflow) : Json :=
  .arr (ws.map encodeWorkflow)

/-- Typed read of the workflow list (`as AutomationWorkflow[]`). -/
def decodeWorkflows : Json → Option (List AutomationWorkflow)
  | .arr l => decodeWorkflowList l
  | _ => none

/-- The `useEffect` persistence hook: the workflow list is written to its
slot on every change. -/
def saveWorkflows (store : Store) (ws : List AutomationWorkflow) : Store :=
  setLocalStorage store STORAGE_KEYS.workflows (encodeWorkflows ws)

/-- The startup `useEffect`:
`getLocalStorage<AutomationWorkflow[]>(STORAGE_KEYS.workflows, [])`. -/
def loadWorkflows (store : Store) : List AutomationWorkflow :=
  getLocalStorage store STORAGE_KEYS.workflows [] decodeWorkflows

/-! ## Typed results returned by the proxy routes to the client -/

/-- `type YoutubeChannelStats` (client) / the `data` object built by the
channel route. The external API carries the counters as decimal strings;
the route converts them with `Number(...)`, modelled here as the numeric
values themselves. -/
structure YoutubeChannelStats where
  title : String
  description : String
  thumbnail : String
  subscriberCount : Nat
  videoCount : Nat
  viewCount : Nat
  deriving DecidableEq, Repr

/-- `type YoutubeVideo` (client) / the items built by the search route. -/
structure YoutubeVideo where
  id : String
  title : String
  thumbnail : String
  publishedAt : String
  channelTitle : String
  description : String
  deriving DecidableEq, Repr

/-- `type YoutubeComment` (client) / the items built by the comments route. -/
structure YoutubeComment where
  id : String
  author : String
  text : String
  likeCount : Nat
  publishedAt : String
  deriving DecidableEq, Repr

/-! ## Proxy routes (`/api/youtube/...`)

Each route is `POST(body, externalResponse)`: the JSON body it was sent
and the response of the one outbound `fetch` it would issue. The result
records the HTTP status, the JSON payload (`{ data }` as `.ok`,
`{ error }` as `.error`), and whether the outbound call was made at all. -/

/-- What a proxy route replies with, plus whether it called the external
API before replying. -/
structure ProxyResult (α : Type) where
  status : Nat
  result : Except String α
  calledExternal : Bool
  deriving Repr

/-- `Response.ok`: status in the range 200–299. -/
def respOk (status : Nat) : Bool := 200 ≤ status && status < 300

/-- One field of a zod object schema: `z.string().min(minLen, msg)`.
`none` means the field parses; a missing field yields zod's default
`"Required"` issue, a too-short string yields the custom message.
(JS string length counts UTF-16 units; ASCII inputs agree with
`String.length`.) -/
def fieldCheck (v : Option String) (minLen : Nat) (msg : String) : Option String :=
  match v with
  | none => some "Required"
  | some s => if s.length < minLen then some msg else none

/-- zod collects issues in schema key order and the handlers surface
`error.errors[0].message`: the first field's issue wins. -/
def zodFirstIssue (first second : Option String) : Option String :=
  match first with
  | some e => some e
  | none => second

/-- `thumbnails?.high?.url ?? thumbnails?.medium?.url ?? thumbnails?.default?.url ?? ""`.
The `Record<string, {url?}>` is accessed only at these three keys, so it
is modelled by three optional URL fields. -/
structure Thumbnails where
  high : Option String
  medium : Option String
  thumbDefault : Option String
  deriving DecidableEq, Repr

/-- The thumbnail fallback chain shared by the channel and search routes. -/
def pickThumbnail (t : Option Thumbnails) : String :=
  ((t.bind Thumbnails.high <|> t.bind Thumbnails.medium) <|>
    t.bind Thumbnails.thumbDefault).getD ""

namespace SearchRoute

/-- The parsed JSON request body of `/api/youtube/search` (fields the
schema looks at; a missing field is `none`). -/
structure Body where
  apiKey : Option String
  query : Option String
  deriving DecidableEq, Repr

/-- `bodySchema.parse` for the search route: the first zod issue
(`error.errors[0].message`), or `none` when the body validates.
Fields are checked in schema order: `apiKey` then `query`. -/
def bodySchemaError (b : Body) : Option String :=
  zodFirstIssue (fieldCheck b.apiKey 10 "API key is required")
    (fieldCheck b.query 2 "Search query is required")

/-- `item.id` of an external search result. -/
structure SearchId where
  videoId : Option String
  deriving DecidableEq, Repr

/-- `item.snippet` of an external search result. -/
structure SearchSnippet where
  title : Option String
  description : Option String
  thumbnails : Option Thumbnails
  publishedAt : Option String
  channelTitle : Option String
  deriving DecidableEq, Repr

/-- One item of the external search response. -/
structure SearchItem where
  id : Option SearchId
  snippet : Option SearchSnippet
  deriving DecidableEq, Repr

/-- The external response: HTTP status, `errorPayload?.error?.message`
(already `none` when the error body fails to parse — the
`.catch(() => ({}))`), and the `items` array. -/
structure ExternalResponse where
  status : Nat
  errorMessage : Option String
  items : Option (List SearchItem)
  deriving DecidableEq, Repr

/-- The `result.items?.map((item) => ...)` body. -/
def mapItem (item : SearchItem) : YoutubeVideo :=
  { id := (item.id.bind SearchId.videoId).getD ""
    title := (item.snippet.bind SearchSnippet.title).getD "Untitled video"
    description := (item.snippet.bind SearchSnippet.description).getD ""
    thumbnail := pickThumbnail (item.snippet.bind SearchSnippet.thumbnails)
    publishedAt := (item.snippet.bind SearchSnippet.publishedAt).getD ""
    channelTitle := (item.snippet.bind SearchSnippet.channelTitle).getD "Unknown channel" }

/-- `POST` of `src/app/api/youtube/search/route.ts`. -/
def POST (b : Body) (resp : ExternalResponse) : ProxyResult (List YoutubeVideo) :=
  match bodySchemaError b with
  | some msg => ⟨400, Except.error msg, false⟩
  | none =>
    if respOk resp.status then
      ⟨200, Except.ok ((resp.items.getD []).map mapItem), true⟩
    else
      ⟨resp.status,
        Except.error (resp.errorMessage.getD
          ("YouTube API responded with " ++ toString resp.status)), true⟩

end SearchRoute

namespace ChannelRoute

/-- The parsed JSON request body of `/api/youtube/channel`. -/
structure Body where
  apiKey : Option String
  channelId : Option String
  deriving DecidableEq, Repr

/-- `bodySchema.parse` for the channel route: first zod issue or `none`. -/
def bodySchemaError (b : Body) : Option String :=
  zodFirstIssue (fieldCheck b.apiKey 10 "API key is required")
    (fieldCheck b.channelId 3 "Channel ID is required")

/-- `item.snippet` of the external channels response. -/
structure ChannelSnippet where
  title : Option String
  description : Option String
  thumbnails : Option Thumbnails
  deriving DecidableEq, Repr

/-- `item.statistics`; the decimal-string counters are modelled as their
numeric values (`Number(x ?? 0)`). -/
structure ChannelStatistics where
  subscriberCount : Option Nat
  viewCount : Option Nat
  videoCount : Option Nat
  deriving DecidableEq, Repr

/-- One item of the external channels response. -/
structure ChannelItem where
  snippet : Option ChannelSnippet
  statistics : Option ChannelStatistics
  deriving DecidableEq, Repr

/-- The external response of the channels endpoint. -/
structure ExternalResponse where
  status : Nat
  errorMessage : Option String
  items : Option (List ChannelItem)
  deriving DecidableEq, Repr

/-- The `data` object built from the first item. -/
def mapChannel (channel : ChannelItem) : YoutubeChannelStats :=
  { title := (channel.snippet.bind ChannelSnippet.title).getD "Unknown channel"
    description := (channel.snippet.bind ChannelSnippet.description).getD ""
    thumbnail := pickThumbnail (channel.snippet.bind ChannelSnippet.thumbnails)
    subscriberCount := (channel.statistics.bind ChannelStatistics.subscriberCount).getD 0
    viewCount := (channel.statistics.bind ChannelStatistics.viewCount).getD 0
    videoCount := (channel.statistics.bind ChannelStatistics.videoCount).getD 0 }

/-- `POST` of the channel route (`src/unnamed/part_001`).
`result.items?.[0]` is `undefined` when `items` is missing or empty,
hence the `Option.bind` with `List.head?`. -/
def POST (b : Body) (resp : ExternalResponse) : ProxyResult YoutubeChannelStats :=
  match bodySchemaError b with
  | some msg => ⟨400, Except.error msg, false⟩
  | none =>
    if respOk resp.status then
      match resp.items.bind List.head? with
      | none => ⟨404, Except.error "Channel not found. Double-check the channel ID.", true⟩
      | some channel => ⟨200, Except.ok (mapChannel channel), true⟩
    else
      ⟨resp.status,
        Except.error (resp.errorMessage.getD
          ("YouTube API responded with " ++ toString resp.status)), true⟩

end ChannelRoute

namespace CommentsRoute

/-- The parsed JSON request body of `/api/youtube/comments`. -/
structure Body where
  apiKey : Option String
  videoId : Option String
  deriving DecidableEq, Repr

/-- `bodySchema.parse` for the comments route: first zod issue or `none`. -/
def bodySchemaError (b : Body) : Option String :=
  zodFirstIssue (fieldCheck b.apiKey 10 "API key is required")
    (fieldCheck b.videoId 3 "Video ID is required")

/-- `topLevelComment.snippet` of an external comment thread. -/
structure TopLevelSnippet where
  authorDisplayName : Option String
  textDisplay : Option String
  likeCount : Option Nat
  publishedAt : Option String
  deriving DecidableEq, Repr

/-- `item.snippet.topLevelComment`. -/
structure TopLevelComment where
  id : Option String
  snippet : Option TopLevelSnippet
  deriving DecidableEq, Repr

/-- `item.snippet` of an external comment thread. -/
structure ThreadSnippet where
  topLevelComment : Option TopLevelComment
  deriving DecidableEq, Repr

/-- One item of the external commentThreads response. -/
structure ThreadItem where
  id : Option String
  snippet : Option ThreadSnippet
  deriving DecidableEq, Repr

/-- The external response of the commentThreads endpoint. -/
structure ExternalResponse where
  status : Nat
  errorMessage : Option String
  items : Option (List ThreadItem)
  deriving DecidableEq, Repr

/-- The `.map((item) => { ... return null ... })` body; the trailing
`.filter(Boolean)` makes the pair a `List.filterMap`. -/
def mapItem (item : ThreadItem) : Option YoutubeComment :=
  match item.snippet.bind ThreadSnippet.topLevelComment with
  | none => none
  | some topLevel => some
    { id := (topLevel.id <|> item.id).getD ""
      author := (topLevel.snippet.bind TopLevelSnippet.authorDisplayName).getD "Unknown author"
      text := (topLevel.snippet.bind TopLevelSnippet.textDisplay).getD ""
      likeCount := (topLevel.snippet.bind TopLevelSnippet.likeCount).getD 0
      publishedAt := (topLevel.snippet.bind TopLevelSnippet.publishedAt).getD "" }

/-- `POST` of `src/app/api/youtube/comments/route.ts`. -/
def POST (b : Body) (resp : ExternalResponse) : ProxyResult (List YoutubeComment) :=
  match bodySchemaError b with
  | some msg => ⟨400, Except.error msg, false⟩
  | none =>
    if respOk resp.status then
      ⟨200, Except.ok ((resp.items.getD []).filterMap mapItem), true⟩
    else
      ⟨resp.status,
        Except.error (resp.errorMessage.getD
          ("YouTube API responded with " ++ toString resp.status)), true⟩

end CommentsRoute

/-! ## Workflow runner (`runWorkflow` in `part_000`)

The three `fetch('/api/youtube/...')` calls are modelled by three
functions supplied in a `RunnerEnv`; each returns either the typed `data`
payload or, on `!response.ok`, the `error` string of the response body
(`none` when that field is absent, so that the runner's
`error ?? '<step> failed.'` fallback applies). `formatNumber`
(`Intl.NumberFormat` compact formatting) is presentation-only and is also
a parameter. -/

/-- One outbound request issued by the runner, with the body it sends. -/
inductive StepRequest where
  | channel (apiKey channelId : String)
  | search (apiKey query : String)
  | comments (apiKey videoId : String)
  deriving DecidableEq, Repr

/-- The runner's external world. -/
structure RunnerEnv where
  netChannel : String → String → Except (Option String) YoutubeChannelStats
  netSearch : String → String → Except (Option String) (List YoutubeVideo)
  netComments : String → String → Except (Option String) (List YoutubeComment)
  formatNumber : Nat → String

/-- The component state the runner reads and writes: the credential, the
three live panel fields the step configs fall back to, the run log, and
the `isRunningWorkflow` flag. -/
structure RunnerState where
  apiKey : String
  channelId : String
  searchQuery : String
  commentsVideoId : String
  runLog : List String
  isRunningWorkflow : Bool
  deriving DecidableEq, Repr

/-- JS template-string interpolation of a possibly-`undefined` value. -/
def templateOpt (o : Option String) : String := o.getD "undefined"

/-- The source file stores its emoji double-encoded; these constants carry
the file's exact code points. -/
def warningLine : String :=
  "‚ö†Ô∏è Add an API key before running workflows."

/-- `▶ Running workflow "<name>" (<schedule label>)` header line. -/
def headerLine (wf : AutomationWorkflow) : String :=
  "‚ñ∂Ô∏è Running workflow \"" ++ wf.name ++ "\" (" ++
    scheduleLabel wf.schedule ++ ")"

/-- Success line of a `channelStats` step. -/
def channelLine (fmt : Nat → String) (data : YoutubeChannelStats) : String :=
  "‚úÖ Channel: " ++ data.title ++ " ‚Ä¢ " ++
    fmt data.subscriberCount ++ " subs"

/-- Success line of a `searchVideos` step: the first three titles joined
with the bullet separator; note it prints `step.config.query` itself, not
the dispatched query. -/
def searchLine (queryOverride : Option String) (data : List YoutubeVideo) : String :=
  let topThree := String.intercalate " ‚Ä¢ " ((data.take 3).map YoutubeVideo.title)
  "üîç Search \"" ++ templateOpt queryOverride ++ "\": " ++ topThree

/-- Success line of a `fetchComments` step. -/
def commentsLine (videoIdOverride : Option String) (count : Nat) : String :=
  "üí¨ Pulled " ++ toString count ++ " comments for video " ++
    templateOpt videoIdOverride

/-- `❌ <workflow name>: <message>` failure line. -/
def failureLine (wf : AutomationWorkflow) (message : String) : String :=
  "‚ùå " ++ wf.name ++ ": " ++ message

/-- The request a step gives rise to: `step.config.<key> ?? <live field>`
(nullish coalescing: an empty-string override is kept). -/
def reqOf (st : RunnerState) (s : WorkflowStep) : StepRequest :=
  match s.type with
  | .channelStats => .channel st.apiKey ((s.config.lookup "channelId").getD st.channelId)
  | .searchVideos => .search st.apiKey ((s.config.lookup "query").getD st.searchQuery)
  | .fetchComments => .comments st.apiKey ((s.config.lookup "videoId").getD st.commentsVideoId)

/-- One iteration of the `for (const step of workflow.steps)` body up to
the log line: the success log line, or the thrown message
(`error ?? '<kind> step failed.'`). Exactly one of the three `if` blocks
runs, since the type tags are mutually exclusive. -/
def dispatch (env : RunnerEnv) (st : RunnerState) (s : WorkflowStep) : Except String String :=
  match s.type with
  | .channelStats =>
    match env.netChannel st.apiKey ((s.config.lookup "channelId").getD st.channelId) with
    | .ok data => .ok (channelLine env.formatNumber data)
    | .error e => .error (e.getD "Channel stats step failed.")
  | .searchVideos =>
    match env.netSearch st.apiKey ((s.config.lookup "query").getD st.searchQuery) with
    | .ok data => .ok (searchLine (s.config.lookup "query") data)
    | .error e => .error (e.getD "Search step failed.")
  | .fetchComments =>
    match env.netComments st.apiKey ((s.config.lookup "videoId").getD st.commentsVideoId) with
    | .ok data => .ok (commentsLine (s.config.lookup "videoId") data.length)
    | .error e => .error (e.getD "Comments step failed.")

/-- The step loop: on success the line is prepended and iteration
continues; on failure the `catch` prepends a failure line and `break`s.
Returns the final log together with the requests issued, in order. -/
def runSteps (env : RunnerEnv) (st : RunnerState) (wf : AutomationWorkflow) :
    List WorkflowStep → List String → List StepRequest → List String × List StepRequest
  | [], log, calls => (log, calls)
  | s :: rest, log, calls =>
    match dispatch env st s with
    | .ok line => runSteps env st wf rest (line :: log) (calls ++ [reqOf st s])
    | .error msg => (failureLine wf msg :: log, calls ++ [reqOf st s])

/-- `runWorkflow`. With a falsy (empty) `apiKey` it prepends one warning
and returns before any call and before `setIsRunningWorkflow(true)`.
Otherwise it prepends the header line, runs the loop, and ends with
`setIsRunningWorkflow(false)`. -/
def runWorkflow (env : RunnerEnv) (st : RunnerState) (wf : AutomationWorkflow) :
    RunnerState × List StepRequest :=
  if st.apiKey = "" then
    ({ st with runLog := warningLine :: st.runLog }, [])
  else
    let r := runSteps env st wf wf.steps (headerLine wf :: st.runLog) []
    ({ st with runLog := r.1, isRunningWorkflow := false }, r.2)

/-! ## Concrete instances used to evaluate the models -/

/-- A concrete channel-stats payload. -/
def statsW : YoutubeChannelStats := ⟨"Tech Chan", "A channel", "", 1200, 34, 99000⟩

/-- A concrete environment: channel calls succeed, search calls fail with
a server-provided message, comment calls succeed with an empty list. -/
def envW : RunnerEnv :=
  { netChannel := fun _ _ => .ok statsW
    netSearch := fun _ _ => .error (some "quota exceeded")
    netComments := fun _ _ => .ok []
    formatNumber := fun n => toString n }

/-- A channel-stats step with no override. -/
def stepA : WorkflowStep := ⟨"a", .channelStats, []⟩

/-- A search step with no override. -/
def stepB : WorkflowStep := ⟨"b", .searchVideos, []⟩

/-- A comments step with no override. -/
def stepC : WorkflowStep := ⟨"c", .fetchComments, []⟩

/-- Component state with a non-empty credential and live defaults. -/
def stW : RunnerState := ⟨"valid-key-123", "cid", "foo", "vid", [], false⟩

/-- Component state with an empty credential. -/
def stEmpty : RunnerState := ⟨"", "cid", "foo", "vid", [], false⟩

/-- A three-step workflow. -/
def wfW : AutomationWorkflow := ⟨"w1", "My flow", .manual, [stepA, stepB, stepC]⟩

/-- A search step whose config holds an empty-string `query` override. -/
def stepEmptyQuery : WorkflowStep := ⟨"s1", .searchVideos, [("query", "")]⟩

/-- A one-step workflow around `stepEmptyQuery`. -/
def wfEmptyQuery : AutomationWorkflow := ⟨"w3", "Search flow", .manual, [stepEmptyQuery]⟩

/-- A body that passes the search route's schema. -/
def searchBodyValid : SearchRoute.Body := ⟨some "valid-key-123", some "news"⟩

/-- A body whose `apiKey` is non-empty but shorter than 10 characters. -/
def searchBodyShortKey : SearchRoute.Body := ⟨some "short", some "news"⟩

/-- A body with no `apiKey` at all. -/
def searchBodyNoKey : SearchRoute.Body := ⟨none, some "news"⟩

/-- An external 500 with an unparsable (empty) error body. -/
def searchResp500 : SearchRoute.ExternalResponse := ⟨500, none, none⟩

/-- An external 403 carrying the platform's own message. -/
def searchResp403 : SearchRoute.ExternalResponse := ⟨403, some "quotaExceeded", none⟩

/-- A successful search response whose single item has every optional
field missing. -/
def searchRespBare : SearchRoute.ExternalResponse := ⟨200, none, some [⟨none, none⟩]⟩

/-- A body that passes the channel route's schema. -/
def channelBodyValid : ChannelRoute.Body := ⟨some "valid-key-123", some "UC123"⟩

/-- A channel body with a short (but non-empty) `channelId`. -/
def channelBodyShortId : ChannelRoute.Body := ⟨some "valid-key-123", some "ab"⟩

/-- An external 500 for the channel route. -/
def channelResp500 : ChannelRoute.ExternalResponse := ⟨500, none, none⟩

/-- A successful channels response with an empty `items` array. -/
def channelRespEmpty : ChannelRoute.ExternalResponse := ⟨200, none, some []⟩

/-- A successful channels response whose single item has every optional
field missing. -/
def channelRespBare : ChannelRoute.ExternalResponse := ⟨200, none, some [⟨none, none⟩]⟩

/-- A body that passes the comments route's schema. -/
def commentsBodyValid : CommentsRoute.Body := ⟨some "valid-key-123", some "vid99"⟩

/-- A comments body with a short (but non-empty) `videoId`. -/
def commentsBodyShortId : CommentsRoute.Body := ⟨some "valid-key-123", some "ab"⟩

/-- An external 500 for the comments route. -/
def commentsResp500 : CommentsRoute.ExternalResponse := ⟨500, none, none⟩

/-- A thread item with no `topLevelComment`. -/
def threadItemNoTop : CommentsRoute.ThreadItem := ⟨some "t0", none⟩

/-- A thread item whose `topLevelComment` exists but carries no snippet. -/
def threadItemBareTop : CommentsRoute.ThreadItem :=
  ⟨some "t1", some ⟨some ⟨some "c1", none⟩⟩⟩

/-- A successful commentThreads response mixing both items above. -/
def commentsRespMixed : CommentsRoute.ExternalResponse :=
  ⟨200, none, some [threadItemNoTop, threadItemBareTop]⟩

/-! # Theorems -/

/-! ## Serialization round-trip lemmas -/

lemma stepTypeOfTag_tag (t : WorkflowStepType) : stepTypeOfTag (stepTypeTag t) = some t := by
  cases t <;> rfl

lemma scheduleOfTag_tag (s : WorkflowSchedule) : scheduleOfTag (scheduleTag s) = some s := by
  cases s <;> rfl

lemma decodeConfig_encodeConfig (c : List (String × String)) :
    decodeConfig (encodeConfig c) = some c := by
  induction c with
  | nil => rfl
  | cons p rest ih =>
    simp only [encodeConfig, decodeConfig, List.map_cons] at ih ⊢
    simp [decodeFields, ih, Json.asString]

lemma decodeStep_encodeStep (s : WorkflowStep) : decodeStep (encodeStep s) = some s := by
  cases s with
  | mk i t c =>
    simp [encodeStep, decodeStep, Json.getField, lookupField, Json.asString,
      stepTypeOfTag_tag, decodeConfig_encodeConfig]

lemma decodeSteps_map_encodeStep (l : List WorkflowStep) :
    decodeSteps (l.map encodeStep) = some l := by
  induction l with
  | nil => rfl
  | cons s rest ih => simp [decodeSteps, decodeStep_encodeStep, ih]

lemma decodeWorkflow_encodeWorkflow (w : AutomationWorkflow) :
    decodeWorkflow (encodeWorkflow w) = some w := by
  cases w with
  | mk i n sched steps =>
    simp [encodeWorkflow, decodeWorkflow, Json.getField, lookupField, Json.asString,
      scheduleOfTag_tag, decodeSteps_map_encodeStep]

lemma decodeWorkflows_encodeWorkflows (ws : List AutomationWorkflow) :
    decodeWorkflows (encodeWorkflows ws) = some ws := by
  induction ws with
  | nil => rfl
  | cons w rest ih =>
    simp only [encodeWorkflows, decodeWorkflows, List.map_cons] at ih ⊢
    simp [decodeWorkflowList, decodeWorkflow_encodeWorkflow, ih]

/-- C7: a workflow list written to the persisted storage slot and read
back at the next startup is reproduced exactly — in particular with the
same names, schedules, and step sequences. -/
theorem workflows_save_load_roundtrip (store : Store) (ws : List AutomationWorkflow) :
    loadWorkflows (saveWorkflows store ws) = ws := by
  unfold loadWorkflows saveWorkflows getLocalStorage setLocalStorage
  simp [decodeWorkflows_encodeWorkflows]

/-! ## Workflow runner -/

/-- C2: with an empty credential the runner prepends exactly one warning
line to the run log, issues zero external requests, and leaves every
other state field (including `isRunningWorkflow`) unchanged. -/
theorem runWorkflow_empty_key_refused (env : RunnerEnv) (st : RunnerState)
    (wf : AutomationWorkflow) (h : st.apiKey = "") :
    runWorkflow env st wf = ({ st with runLog := warningLine :: st.runLog }, []) := by
  unfold runWorkflow
  rw [if_pos h]

/-- C2 witness: a concrete empty-credential run. -/
theorem runWorkflow_empty_key_refused_witness :
    runWorkflow envW stEmpty wfW = ({ stEmpty with runLog := [warningLine] }, []) :=
  runWorkflow_empty_key_refused envW stEmpty wfW rfl

/-- C1: with a non-empty credential and steps `[A, B, C]` where `A`'s
dispatch succeeds (log line `la`) and `B`'s dispatch fails (message `e`),
the run log gains exactly the failure line for `B`, the success line for
`A`, and the header — no line for `C` — and the requests issued are
exactly `A`'s and `B`'s, so `C` is never dispatched. -/
theorem runWorkflow_short_circuit (env : RunnerEnv) (st : RunnerState)
    (wf : AutomationWorkflow) (A B C : WorkflowStep) (la e : String)
    (hkey : st.apiKey ≠ "") (hsteps : wf.steps = [A, B, C])
    (hA : dispatch env st A = .ok la) (hB : dispatch env st B = .error e) :
    (runWorkflow env st wf).1.runLog
        = failureLine wf e :: la :: headerLine wf :: st.runLog ∧
    (runWorkflow env st wf).2 = [reqOf st A, reqOf st B] := by
  unfold runWorkflow
  rw [if_neg hkey, hsteps]
  simp [runSteps, hA, hB]

/-- C1 witness: a concrete three-step run where the channel step succeeds
and the search step fails. -/
theorem runWorkflow_short_circuit_witness :
    (runWorkflow envW stW wfW).1.runLog
        = failureLine wfW "quota exceeded" ::
            channelLine envW.formatNumber statsW :: headerLine wfW :: stW.runLog ∧
    (runWorkflow envW stW wfW).2 = [reqOf stW stepA, reqOf stW stepB] :=
  runWorkflow_short_circuit envW stW wfW stepA stepB stepC
    (channelLine envW.formatNumber statsW) "quota exceeded" (by decide) rfl rfl rfl

/-- C3 counterexample: a `searchVideos` step whose config holds the
empty-string `query` override, run while the live query field holds
`"foo"`, dispatches the search call with query `""` — not `"foo"` as the
claim states (`??` only falls back on a missing key). -/
theorem search_empty_override_counterexample :
    (runWorkflow envW stW wfEmptyQuery).2 = [StepRequest.search "valid-key-123" ""] ∧
    StepRequest.search "valid-key-123" "" ≠ StepRequest.search "valid-key-123" "foo" := by
  exact ⟨rfl, by decide⟩

/-- C3 amended: an empty-string `query` override is dispatched verbatim —
for any environment, live state, and one-step workflow around such a
step, the single request issued carries the empty query, regardless of
the live query field. (Only a step with no `query` key at all falls back
to the live default.) -/
theorem runWorkflow_empty_override_dispatched_verbatim (env : RunnerEnv)
    (st : RunnerState) (wf : AutomationWorkflow) (s : WorkflowStep)
    (hkey : st.apiKey ≠ "") (hsteps : wf.steps = [s])
    (htype : s.type = .searchVideos) (hq : s.config.lookup "query" = some "") :
    (runWorkflow env st wf).2 = [StepRequest.search st.apiKey ""] := by
  unfold runWorkflow
  rw [if_neg hkey, hsteps]
  have hreq : reqOf st s = .search st.apiKey "" := by
    simp [reqOf, htype, hq]
  cases hD : dispatch env st s with
  | ok line => simp [runSteps, hD, hreq]
  | error msg => simp [runSteps, hD, hreq]

/-- C3 amended witness: the concrete empty-override workflow issues the
empty-query request. -/
theorem runWorkflow_empty_override_dispatched_verbatim_witness :
    (runWorkflow envW stW wfEmptyQuery).2 = [StepRequest.search "valid-key-123" ""] :=
  runWorkflow_empty_override_dispatched_verbatim envW stW wfEmptyQuery stepEmptyQuery
    (by decide) rfl rfl rfl

/-! ## Proxy routes: validation -/

lemma fieldCheck_eq_some {v : Option String} {n : Nat} {msg e : String}
    (h : fieldCheck v n msg = some e) : e = "Required" ∨ e = msg := by
  cases v with
  | none =>
    simp only [fieldCheck] at h
    exact Or.inl (Option.some.inj h).symm
  | some s =>
    simp only [fieldCheck] at h
    by_cases hl : s.length < n
    · rw [if_pos hl] at h
      exact Or.inr (Option.some.inj h).symm
    · rw [if_neg hl] at h
      exact Option.noConfusion h

lemma zodFirstIssue_fieldCheck_ne_empty {v1 v2 : Option String} {n1 n2 : Nat}
    {m1 m2 e : String} (h1 : m1 ≠ "") (h2 : m2 ≠ "")
    (h : zodFirstIssue (fieldCheck v1 n1 m1) (fieldCheck v2 n2 m2) = some e) :
    e ≠ "" := by
  unfold zodFirstIssue at h
  cases hc : fieldCheck v1 n1 m1 with
  | some e1 =>
    rw [hc] at h
    cases Option.some.inj h
    rcases fieldCheck_eq_some hc with h3 | h3 <;> subst h3
    · decide
    · exact h1
  | none =>
    rw [hc] at h
    rcases fieldCheck_eq_some h with h3 | h3 <;> subst h3
    · decide
    · exact h2

lemma searchPOST_invalid (b : SearchRoute.Body) (r : SearchRoute.ExternalResponse)
    (m : String) (h : SearchRoute.bodySchemaError b = some m) :
    SearchRoute.POST b r = ⟨400, Except.error m, false⟩ := by
  unfold SearchRoute.POST
  rw [h]

lemma channelPOST_invalid (b : ChannelRoute.Body) (r : ChannelRoute.ExternalResponse)
    (m : String) (h : ChannelRoute.bodySchemaError b = some m) :
    ChannelRoute.POST b r = ⟨400, Except.error m, false⟩ := by
  unfold ChannelRoute.POST
  rw [h]

lemma commentsPOST_invalid (b : CommentsRoute.Body) (r : CommentsRoute.ExternalResponse)
    (m : String) (h : CommentsRoute.bodySchemaError b = some m) :
    CommentsRoute.POST b r = ⟨400, Except.error m, false⟩ := by
  unfold CommentsRoute.POST
  rw [h]

/-- C4: for each of the three proxy routes, a body whose credential or
identifier/query field fails the schema is answered with status 400, the
first validation error (a non-empty string), and no external call. -/
theorem proxy_validation_rejects
    (bs : SearchRoute.Body) (rs : SearchRoute.ExternalResponse) (ms : String)
    (bc : ChannelRoute.Body) (rc : ChannelRoute.ExternalResponse) (mc : String)
    (bm : CommentsRoute.Body) (rm : CommentsRoute.ExternalResponse) (mm : String)
    (hs : SearchRoute.bodySchemaError bs = some ms)
    (hc : ChannelRoute.bodySchemaError bc = some mc)
    (hm : CommentsRoute.bodySchemaError bm = some mm) :
    (SearchRoute.POST bs rs = ⟨400, Except.error ms, false⟩ ∧ ms ≠ "") ∧
    (ChannelRoute.POST bc rc = ⟨400, Except.error mc, false⟩ ∧ mc ≠ "") ∧
    (CommentsRoute.POST bm rm = ⟨400, Except.error mm, false⟩ ∧ mm ≠ "") := by
  refine ⟨⟨searchPOST_invalid bs rs ms hs, ?_⟩,
    ⟨channelPOST_invalid bc rc mc hc, ?_⟩,
    ⟨commentsPOST_invalid bm rm mm hm, ?_⟩⟩
  · exact zodFirstIssue_fieldCheck_ne_empty (by decide) (by decide) hs
  · exact zodFirstIssue_fieldCheck_ne_empty (by decide) (by decide) hc
  · exact zodFirstIssue_fieldCheck_ne_empty (by decide) (by decide) hm

/-- C4 witness: concrete invalid bodies — a short `apiKey`, a short
`channelId`, a short `videoId` — each refused without an external call. -/
theorem proxy_validation_rejects_witness :
    (SearchRoute.POST searchBodyShortKey searchResp500
        = ⟨400, Except.error "API key is required", false⟩ ∧
      "API key is required" ≠ "") ∧
    (ChannelRoute.POST channelBodyShortId channelResp500
        = ⟨400, Except.error "Channel ID is required", false⟩ ∧
      "Channel ID is required" ≠ "") ∧
    (CommentsRoute.POST commentsBodyShortId commentsResp500
        = ⟨400, Except.error "Video ID is required", false⟩ ∧
      "Video ID is required" ≠ "") :=
  proxy_validation_rejects searchBodyShortKey searchResp500 "API key is required"
    channelBodyShortId channelResp500 "Channel ID is required"
    commentsBodyShortId commentsResp500 "Video ID is required" rfl rfl rfl

/-! ## Proxy routes: relaying external errors -/

/-- C5 counterexample: on an external 500 with no platform message, the
code's generic message is `"YouTube API responded with 500"`, not the
claimed `"API responded with 500"`. -/
theorem generic_error_message_counterexample :
    (SearchRoute.POST searchBodyValid searchResp500).result
        = Except.error "YouTube API responded with 500" ∧
    "YouTube API responded with 500" ≠ "API responded with 500" :=
  ⟨rfl, by decide⟩

/-- C5 amended: on an external non-success status each route relays the
status code unchanged and surfaces the platform's own message when
present, else the generic `"YouTube API responded with <status>"`. -/
theorem proxy_error_relay
    (bs : SearchRoute.Body) (rs : SearchRoute.ExternalResponse)
    (bc : ChannelRoute.Body) (rc : ChannelRoute.ExternalResponse)
    (bm : CommentsRoute.Body) (rm : CommentsRoute.ExternalResponse)
    (hs : SearchRoute.bodySchemaError bs = none) (hsOk : respOk rs.status = false)
    (hc : ChannelRoute.bodySchemaError bc = none) (hcOk : respOk rc.status = false)
    (hm : CommentsRoute.bodySchemaError bm = none) (hmOk : respOk rm.status = false) :
    SearchRoute.POST bs rs = ⟨rs.status,
      Except.error (rs.errorMessage.getD
        ("YouTube API responded with " ++ toString rs.status)), true⟩ ∧
    ChannelRoute.POST bc rc = ⟨rc.status,
      Except.error (rc.errorMessage.getD
        ("YouTube API responded with " ++ toString rc.status)), true⟩ ∧
    CommentsRoute.POST bm rm = ⟨rm.status,
      Except.error (rm.errorMessage.getD
        ("YouTube API responded with " ++ toString rm.status)), true⟩ := by
  refine ⟨?_, ?_, ?_⟩
  · unfold SearchRoute.POST
    rw [hs, hsOk]
    simp
  · unfold ChannelRoute.POST
    rw [hc, hcOk]
    simp
  · unfold CommentsRoute.POST
    rw [hm, hmOk]
    simp

/-- C5 amended witness: a 403 with a platform message is relayed verbatim
by the search route; a 500 with an unreadable body gets the generic
message from the channel and comments routes. -/
theorem proxy_error_relay_witness :
    SearchRoute.POST searchBodyValid searchResp403
        = ⟨403, Except.error "quotaExceeded", true⟩ ∧
    ChannelRoute.POST channelBodyValid channelResp500
        = ⟨500, Except.error "YouTube API responded with 500", true⟩ ∧
    CommentsRoute.POST commentsBodyValid commentsResp500
        = ⟨500, Except.error "YouTube API responded with 500", true⟩ :=
  proxy_error_relay searchBodyValid searchResp403 channelBodyValid channelResp500
    commentsBodyValid commentsResp500 rfl rfl rfl rfl rfl rfl

/-! ## Proxy routes: defaults for missing optional fields -/

/-- C6: on a successful external response each route reshapes the items
without failing, substituting the documented defaults for missing
optional fields — thumbnail `""`, channel title `"Unknown channel"`,
video title `"Untitled video"` (and, in the comments route, author
`"Unknown author"`, text `""`, like count `0`). -/
theorem proxy_missing_fields_default
    (bs : SearchRoute.Body) (rs : SearchRoute.ExternalResponse)
    (itemsS : List SearchRoute.SearchItem) (it : SearchRoute.SearchItem)
    (bc : ChannelRoute.Body) (rc : ChannelRoute.ExternalResponse)
    (ch : ChannelRoute.ChannelItem)
    (bm : CommentsRoute.Body) (rm : CommentsRoute.ExternalResponse)
    (itemsM : List CommentsRoute.ThreadItem) (itm : CommentsRoute.ThreadItem)
    (tl : CommentsRoute.TopLevelComment)
    (hs : SearchRoute.bodySchemaError bs = none) (hsOk : respOk rs.status = true)
    (hsItems : rs.items = some itemsS)
    (hitSnip : it.snippet = none)
    (hc : ChannelRoute.bodySchemaError bc = none) (hcOk : respOk rc.status = true)
    (hcHead : rc.items.bind List.head? = some ch)
    (hcSnip : ch.snippet = none) (hcStats : ch.statistics = none)
    (hm : CommentsRoute.bodySchemaError bm = none) (hmOk : respOk rm.status = true)
    (hmItems : rm.items = some itemsM)
    (hitmTop : itm.snippet = some ⟨some tl⟩) (htlSnip : tl.snippet = none) :
    SearchRoute.POST bs rs = ⟨200, Except.ok (itemsS.map SearchRoute.mapItem), true⟩ ∧
    SearchRoute.mapItem it =
      ⟨(it.id.bind SearchRoute.SearchId.videoId).getD "",
        "Untitled video", "", "", "Unknown channel", ""⟩ ∧
    ChannelRoute.POST bc rc = ⟨200, Except.ok ⟨"Unknown channel", "", "", 0, 0, 0⟩, true⟩ ∧
    CommentsRoute.POST bm rm
        = ⟨200, Except.ok (itemsM.filterMap CommentsRoute.mapItem), true⟩ ∧
    CommentsRoute.mapItem itm
        = some ⟨(tl.id <|> itm.id).getD "", "Unknown author", "", 0, ""⟩ := by
  refine ⟨?_, ?_, ?_, ?_, ?_⟩
  · unfold SearchRoute.POST
    rw [hs, hsOk]
    simp [hsItems]
  · simp [SearchRoute.mapItem, hitSnip, pickThumbnail]
  · unfold ChannelRoute.POST
    rw [hc, hcOk]
    simp [hcHead, ChannelRoute.mapChannel, hcSnip, hcStats, pickThumbnail]
  · unfold CommentsRoute.POST
    rw [hm, hmOk]
    simp [hmItems]
  · simp [CommentsRoute.mapItem, hitmTop, htlSnip]

/-- C6 witness: concrete bare items through all three routes. -/
theorem proxy_missing_fields_default_witness :
    SearchRoute.POST searchBodyValid searchRespBare
        = ⟨200, Except.ok [⟨"", "Untitled video", "", "", "Unknown channel", ""⟩], true⟩ ∧
    SearchRoute.mapItem ⟨none, none⟩
        = ⟨"", "Untitled video", "", "", "Unknown channel", ""⟩ ∧
    ChannelRoute.POST channelBodyValid channelRespBare
        = ⟨200, Except.ok ⟨"Unknown channel", "", "", 0, 0, 0⟩, true⟩ ∧
    CommentsRoute.POST commentsBodyValid commentsRespMixed
        = ⟨200, Except.ok [⟨"c1", "Unknown author", "", 0, ""⟩], true⟩ ∧
    CommentsRoute.mapItem threadItemBareTop
        = some ⟨"c1", "Unknown author", "", 0, ""⟩ :=
  proxy_missing_fields_default searchBodyValid searchRespBare [⟨none, none⟩] ⟨none, none⟩
    channelBodyValid channelRespBare ⟨none, none⟩
    commentsBodyValid commentsRespMixed [threadItemNoTop, threadItemBareTop]
    threadItemBareTop ⟨some "c1", none⟩
    rfl rfl rfl rfl rfl rfl rfl rfl rfl rfl rfl rfl rfl rfl

/-- C9: when the external channels call succeeds but its `items` list is
missing or empty, the channel route answers 404 with the fixed
channel-not-found message instead of a defaulted data result. -/
theorem channel_not_found_on_empty_items
    (b : ChannelRoute.Body) (r : ChannelRoute.ExternalResponse)
    (hv : ChannelRoute.bodySchemaError b = none) (hok : respOk r.status = true)
    (hempty : r.items.bind List.head? = none) :
    ChannelRoute.POST b r
        = ⟨404, Except.error "Channel not found. Double-check the channel ID.", true⟩ := by
  unfold ChannelRoute.POST
  rw [hv, hok]
  simp [hempty]

/-- C9 witness: a successful response with an empty `items` array. -/
theorem channel_not_found_on_empty_items_witness :
    ChannelRoute.POST channelBodyValid channelRespEmpty
        = ⟨404, Except.error "Channel not found. Double-check the channel ID.", true⟩ :=
  channel_not_found_on_empty_items channelBodyValid channelRespEmpty rfl rfl rfl

/-- C10: the comments route maps a successful response through
`filterMap`: an item without a `topLevelComment` is dropped rather than
defaulted, the result is never longer than the external list, and on a
concrete one-bad-item list it is strictly shorter. -/
theorem comments_drop_missing_toplevel :
    (∀ (b : CommentsRoute.Body) (r : CommentsRoute.ExternalResponse)
        (items : List CommentsRoute.ThreadItem),
        CommentsRoute.bodySchemaError b = none → respOk r.status = true →
        r.items = some items →
        CommentsRoute.POST b r
          = ⟨200, Except.ok (items.filterMap CommentsRoute.mapItem), true⟩) ∧
    (∀ it : CommentsRoute.ThreadItem,
        it.snippet.bind CommentsRoute.ThreadSnippet.topLevelComment = none →
        CommentsRoute.mapItem it = none) ∧
    (∀ items : List CommentsRoute.ThreadItem,
        (items.filterMap CommentsRoute.mapItem).length ≤ items.length) ∧
    (([threadItemNoTop].filterMap CommentsRoute.mapItem).length
        < ([threadItemNoTop] : List CommentsRoute.ThreadItem).length) := by
  refine ⟨?_, ?_, ?_, ?_⟩
  · intro b r items hv hok hitems
    unfold CommentsRoute.POST
    rw [hv, hok]
    simp [hitems]
  · intro it hit
    unfold CommentsRoute.mapItem
    rw [hit]
  · intro items
    exact List.length_filterMap_le _ _
  · decide

/-- C10 witness: on the mixed concrete response, the returned list keeps
only the item that has a top-level comment. -/
theorem comments_drop_missing_toplevel_witness :
    CommentsRoute.POST commentsBodyValid commentsRespMixed
        = ⟨200, Except.ok [⟨"c1", "Unknown author", "", 0, ""⟩], true⟩ :=
  comments_drop_missing_toplevel.1 commentsBodyValid commentsRespMixed
    [threadItemNoTop, threadItemBareTop] rfl rfl rfl

/-! ## Proxy routes: minimum-length thresholds -/

lemma fieldCheck_short {s : String} {n : Nat} {m : String} (h : s.length < n) :
    fieldCheck (some s) n m = some m := by
  simp [fieldCheck, h]

lemma zodFirstIssue_isSome_of_second (f1 f2 : Option String) (e : String)
    (h : f2 = some e) : ∃ x, zodFirstIssue f1 f2 = some x := by
  cases f1 with
  | some y => exact ⟨y, rfl⟩
  | none => exact ⟨e, by simp [zodFirstIssue, h]⟩

/-- C8: each route rejects an `apiKey` shorter than 10 characters — even a
non-empty one — with 400 and the message `"API key is required"`; and a
`query` shorter than 2 characters, or a `channelId`/`videoId` shorter
than 3, is likewise rejected with 400 and no external call. Non-empty
alone is never enough. -/
theorem proxy_min_length_validation :
    (∀ (b : SearchRoute.Body) (r : SearchRoute.ExternalResponse) (k : String),
        b.apiKey = some k → k.length < 10 →
        SearchRoute.POST b r = ⟨400, Except.error "API key is required", false⟩) ∧
    (∀ (b : ChannelRoute.Body) (r : ChannelRoute.ExternalResponse) (k : String),
        b.apiKey = some k → k.length < 10 →
        ChannelRoute.POST b r = ⟨400, Except.error "API key is required", false⟩) ∧
    (∀ (b : CommentsRoute.Body) (r : CommentsRoute.ExternalResponse) (k : String),
        b.apiKey = some k → k.length < 10 →
        CommentsRoute.POST b r = ⟨400, Except.error "API key is required", false⟩) ∧
    (∀ (b : SearchRoute.Body) (r : SearchRoute.ExternalResponse) (q : String),
        b.query = some q → q.length < 2 →
        (SearchRoute.POST b r).status = 400 ∧
          (SearchRoute.POST b r).calledExternal = false) ∧
    (∀ (b : ChannelRoute.Body) (r : ChannelRoute.ExternalResponse) (c : String),
        b.channelId = some c → c.length < 3 →
        (ChannelRoute.POST b r).status = 400 ∧
          (ChannelRoute.POST b r).calledExternal = false) ∧
    (∀ (b : CommentsRoute.Body) (r : CommentsRoute.ExternalResponse) (v : String),
        b.videoId = some v → v.length < 3 →
        (CommentsRoute.POST b r).status = 400 ∧
          (CommentsRoute.POST b r).calledExternal = false) := by
  refine ⟨?_, ?_, ?_, ?_, ?_, ?_⟩
  · intro b r k hk hl
    apply searchPOST_invalid
    unfold SearchRoute.bodySchemaError
    rw [hk, fieldCheck_short hl]
    rfl
  · intro b r k hk hl
    apply channelPOST_invalid
    unfold ChannelRoute.bodySchemaError
    rw [hk, fieldCheck_short hl]
    rfl
  · intro b r k hk hl
    apply commentsPOST_invalid
    unfold CommentsRoute.bodySchemaError
    rw [hk, fieldCheck_short hl]
    rfl
  · intro b r q hq hl
    have h2 : fieldCheck b.query 2 "Search query is required"
        = some "Search query is required" := by
      rw [hq]
      exact fieldCheck_short hl
    obtain ⟨x, hx⟩ := zodFirstIssue_isSome_of_second
      (fieldCheck b.apiKey 10 "API key is required") _ _ h2
    rw [searchPOST_invalid b r x hx]
    exact ⟨rfl, rfl⟩
  · intro b r c hc hl
    have h2 : fieldCheck b.channelId 3 "Channel ID is required"
        = some "Channel ID is required" := by
      rw [hc]
      exact fieldCheck_short hl
    obtain ⟨x, hx⟩ := zodFirstIssue_isSome_of_second
      (fieldCheck b.apiKey 10 "API key is required") _ _ h2
    rw [channelPOST_invalid b r x hx]
    exact ⟨rfl, rfl⟩
  · intro b r v hv hl
    have h2 : fieldCheck b.videoId 3 "Video ID is required"
        = some "Video ID is required" := by
      rw [hv]
      exact fieldCheck_short hl
    obtain ⟨x, hx⟩ := zodFirstIssue_isSome_of_second
      (fieldCheck b.apiKey 10 "API key is required") _ _ h2
    rw [commentsPOST_invalid b r x hx]
    exact ⟨rfl, rfl⟩

/-- C8 witness: the non-empty five-character key `"short"` is rejected
with `"API key is required"`, and the non-empty two-character channel id
`"ab"` is rejected without an external call. -/
theorem proxy_min_length_validation_witness :
    SearchRoute.POST searchBodyShortKey searchResp500
        = ⟨400, Except.error "API key is required", false⟩ ∧
    (ChannelRoute.POST channelBodyShortId channelResp500).status = 400 ∧
    (ChannelRoute.POST channelBodyShortId channelResp500).calledExternal = false :=
  ⟨proxy_min_length_validation.1 searchBodyShortKey searchResp500 "short" rfl (by decide),
    (proxy_min_length_validation.2.2.2.2.1 channelBodyShortId channelResp500 "ab"
      rfl (by decide)).1,
    (proxy_min_length_validation.2.2.2.2.1 channelBodyShortId channelResp500 "ab"
      rfl (by decide)).2⟩
